import Mathlib

/-!
Verification development for the simple-picking-react repository.

The definitions below are a shallow embedding of the repository's core
logic:

* `advisePrice` and its helpers embed `advisePrice` from
  `scripts/bol-update-prices.js` (lines 238-306).  JS numbers are
  modelled as rationals (`ℚ`); the competitor map entries that the JS
  code marks with the string `'N/A'` are modelled as `none`.  The JS
  `candidates.reduce(...)` throws a `TypeError` on an empty candidate
  list; this is modelled by returning `none`.
* `generateLocation` embeds `generateLocation` from
  `scripts/bol-picking-list.js` (lines 112-126); the two `Math.random()`
  draws of the fallback branch are passed in as explicit `Nat`
  parameters.
* The picking / shipping state machine (`pickStep`, `shipStep`,
  `fetchOrdersStep`, `createLabels`, `createShipments`,
  `generatePickingList`) embeds the corresponding route handlers of
  `server.js` and the scripts they call.  Outbound network calls are
  modelled by explicit outcome parameters.
-/

namespace Picking

/-! ## Price Advisor (`scripts/bol-update-prices.js`) -/

/-- The five condition tiers, best to worst
(`const CONDITIONS = ['NEW', 'AS_NEW', 'GOOD', 'REASONABLE', 'MODERATE']`). -/
inductive Cond where
  | NEW
  | AS_NEW
  | GOOD
  | REASONABLE
  | MODERATE
deriving DecidableEq, Repr

/-- The lowest competitor price per condition tier, as produced by
`lowestPerCondition`; a tier with no data (the JS string `'N/A'`) is `none`. -/
structure Competitors where
  NEW : Option ℚ
  AS_NEW : Option ℚ
  GOOD : Option ℚ
  REASONABLE : Option ℚ
  MODERATE : Option ℚ
deriving DecidableEq, Repr

def Competitors.get (c : Competitors) : Cond → Option ℚ
  | .NEW => c.NEW
  | .AS_NEW => c.AS_NEW
  | .GOOD => c.GOOD
  | .REASONABLE => c.REASONABLE
  | .MODERATE => c.MODERATE

/-- `const has = cond => competitors[cond] !== 'N/A'`. -/
def hasCond (c : Competitors) (k : Cond) : Bool :=
  (c.get k).isSome

/-- `Object.values(competitors).some(v => v !== 'N/A')`. -/
def anyData (c : Competitors) : Bool :=
  c.NEW.isSome || c.AS_NEW.isSome || c.GOOD.isSome || c.REASONABLE.isSome || c.MODERATE.isSome

/-- One entry of the JS `candidates` array: `{ val, desc }`. -/
structure Candidate where
  val : ℚ
  desc : String
deriving DecidableEq, Repr

/-- The `switch (myCond)` block of `advisePrice` building the candidate list. -/
def candidatesFor (myPrice : ℚ) (myCond : Cond) (comp : Competitors) : List Candidate :=
  match myCond with
  | .AS_NEW =>
    let c1 : List Candidate :=
      match comp.AS_NEW with
      | some q => [⟨if q = myPrice then myPrice else q - 0.05, "AS_NEW -0.05"⟩]
      | none => []
    let c2 : List Candidate :=
      match comp.GOOD with
      | some q => [⟨q * 1.225, "GOOD×1.225"⟩]
      | none => []
    let c3 : List Candidate :=
      match comp.REASONABLE with
      | some q => [⟨q * 1.45, "REASONABLE×1.45"⟩]
      | none => []
    let base := c1 ++ c2 ++ c3
    if base.isEmpty then
      match comp.MODERATE with
      | some q => [⟨q * 1.625, "MODERATE×1.625"⟩]
      | none => []
    else base
  | .GOOD =>
    match comp.GOOD with
    | some q => [⟨if q = myPrice then myPrice else q - 0.05, "GOOD -0.05"⟩]
    | none =>
      match comp.REASONABLE with
      | some q => [⟨q * 1.225, "REASONABLE×1.225"⟩]
      | none =>
        match comp.AS_NEW with
        | some q => [⟨q * 0.775, "AS_NEW×0.775"⟩]
        | none =>
          match comp.MODERATE with
          | some q => [⟨q * 1.45, "MODERATE×1.45"⟩]
          | none => []
  | .REASONABLE =>
    match comp.REASONABLE with
    | some q => [⟨if q = myPrice then myPrice else q - 0.05, "REASONABLE -0.05"⟩]
    | none =>
      match comp.GOOD with
      | some q => [⟨q * 0.775, "GOOD×0.775"⟩]
      | none =>
        match comp.AS_NEW with
        | some q => [⟨q * 0.70 * 0.775, "AS_NEW×0.70×0.775"⟩]
        | none =>
          match comp.MODERATE with
          | some q => [⟨q * 1.225, "MODERATE×1.225"⟩]
          | none => []
  | .MODERATE =>
    [⟨match comp.MODERATE with | some q => q - 0.05 | none => myPrice, "MODERATE -0.05"⟩]
  | .NEW =>
    match comp.NEW with
    | some q => [⟨if q = myPrice then myPrice else q - 0.01, "NEW -0.01"⟩]
    | none => []

/-- `candidates.reduce((a, b) => a.val <= b.val ? a : b)` after the first
element has been taken as the accumulator. -/
def minCandidate (c : Candidate) (rest : List Candidate) : Candidate :=
  rest.foldl (fun a b => if a.val ≤ b.val then a else b) c

/-- The list of conditions strictly better than `myCond`, in the order the
clamping loop `for (let j = idx - 1; j >= 0; j--)` visits them
(nearest better tier first). -/
def betterConds : Cond → List Cond
  | .NEW => []
  | .AS_NEW => [.NEW]
  | .GOOD => [.AS_NEW, .NEW]
  | .REASONABLE => [.GOOD, .AS_NEW, .NEW]
  | .MODERATE => [.REASONABLE, .GOOD, .AS_NEW, .NEW]

/-- Scan for the first better tier with data, together with its price and the
tier distance `idx - j`. -/
def findNearestBetter (comp : Competitors) : List Cond → Nat → Option (Cond × ℚ × Nat)
  | [], _ => none
  | k :: rest, d =>
    match comp.get k with
    | some q => some (k, q, d)
    | none => findNearestBetter comp rest (d + 1)

/-- The first better tier with data that the clamping loop hits before its
`break`, if any. -/
def nearestBetter (myCond : Cond) (comp : Competitors) : Option (Cond × ℚ × Nat) :=
  findNearestBetter comp (betterConds myCond) 1

def condName : Cond → String
  | .NEW => "NEW"
  | .AS_NEW => "AS_NEW"
  | .GOOD => "GOOD"
  | .REASONABLE => "REASONABLE"
  | .MODERATE => "MODERATE"

/-- `parseFloat(x.toFixed(2))`: round to two decimals.  Modelled as
round-half-up on rationals (the inputs in this code path are nonnegative
prices, where JS `toFixed` agrees up to binary-float representation error). -/
def round2 (q : ℚ) : ℚ :=
  (⌊q * 100 + 1 / 2⌋ : ℚ) / 100

/-- Render a rounded price the way `x.toFixed(2)` does, for the explanation
trail (integer part, a dot, two fractional digits). -/
def qToFixed2 (q : ℚ) : String :=
  let m : Int := ⌊q * 100 + 1 / 2⌋
  let ip := m / 100
  let fp := (m % 100).natAbs
  toString ip ++ "." ++ (if fp < 10 then "0" else "") ++ toString fp

/-- Render a two-decimal price the way JS string interpolation of a number
does (no trailing zeros), for the explanation trail. -/
def qNumToString (q : ℚ) : String :=
  let m : Int := ⌊q * 100 + 1 / 2⌋
  let ip := m / 100
  let fp := (m % 100).natAbs
  if fp = 0 then toString ip
  else if fp % 10 = 0 then toString ip ++ "." ++ toString (fp / 10)
  else toString ip ++ "." ++ (if fp < 10 then "0" else "") ++ toString fp

/-- The clamping loop: against the nearest better tier with data, enforce
`rec ≤ competitor[up] * 0.775 ^ (idx - j)`; returns the (possibly clamped)
value and the explanation entry it appends, if any. -/
def clampBetter (myCond : Cond) (comp : Competitors) (v : ℚ) : ℚ × Option String :=
  match nearestBetter myCond comp with
  | none => (v, none)
  | some (up, q, d) =>
    let t := q * (0.775 : ℚ) ^ d
    if v > t then
      (t, some ("enforce ≤" ++ qToFixed2 t ++ " (22,5% korting vanaf " ++ condName up ++ ")"))
    else (v, none)

/-- `if (rec < 7.5) rec = 7.5`. -/
def applyFloor (v : ℚ) : ℚ :=
  if v < 7.5 then 7.5 else v

/-- Shallow embedding of `advisePrice(myPrice, myCond, competitors)` from
`scripts/bol-update-prices.js`.  Returns `none` where the JS code throws
(the `reduce` over an empty candidate list). -/
def advisePrice (myPrice : ℚ) (myCond : Cond) (comp : Competitors) : Option (ℚ × String) :=
  if anyData comp = false then
    some (45.00, "geen concurrentie, fallback €45,00")
  else
    match candidatesFor myPrice myCond comp with
    | [] => none
    | c :: rest =>
      let chosen := minCandidate c rest
      let clamped := clampBetter myCond comp chosen.val
      let floored := applyFloor clamped.1
      let finalPrice := round2 floored
      let exps := ["keuze: " ++ chosen.desc] ++ clamped.2.toList
        ++ (if clamped.1 < 7.5 then ["ondergrens €7,50"] else [])
        ++ ["afrond → " ++ qNumToString finalPrice]
      some (finalPrice, String.intercalate "; " exps)

/-! ## Picking items and the fulfilment state machine
(`server.js`, `scripts/bol-picking-list.js`, `scripts/postnl-create-labels.js`,
`scripts/bol-create-shipments.js`)

Outbound network calls (the PostNL label call, the BOL shipment
registrations, the order fetches) are modelled by explicit outcome
parameters; timestamps (`new Date().toISOString()`, `Date.now()`) and the
`Math.random()` draws are passed in as parameters.  Fields of a picking
entry that no code path ever reads back (`originalReference`,
`locationConfirmed`, `orderDate`, `latestShipDate`, `processedAt`,
`ReceiverSMS`) are projected away. -/

/-- JS `a || b` for strings: the empty string is falsy. -/
def jsOr (s d : String) : String := if s = "" then d else s

/-- JS `a || b` where `a` may also be `undefined`/`null`. -/
def jsOrO (o : Option String) (d : String) : String :=
  match o with
  | some s => jsOr s d
  | none => d

/-- JS truthiness test `!x` on an optional string field
(`undefined`, `null` and `""` are falsy). -/
def jsFalsy (o : Option String) : Bool :=
  match o with
  | some s => s = ""
  | none => true

/-- An apostrophe character, for building the JS message strings. -/
def apos : String := String.singleton (Char.ofNat 39)

/-- One entry of `currentPickingList`: the Picking Item record built by
`generatePickingList` (`scripts/bol-picking-list.js` lines 173-217) and
mutated by the pick and ship handlers of `server.js`.  Fields that are
`undefined` until a handler sets them are `Option`s. -/
structure Item where
  MessageID : String
  OrderItemID : String
  EAN : String
  ProductTitle : String
  location : String
  FirstName : String
  LastName : String
  ShipStreet : String
  ShipHouseNr : String
  ShipHouseNrExt : String
  ShipZipcode : String
  ShipCity : String
  ShipCountrycode : String
  ReceiverEmail : String
  quantity : Nat
  price : ℚ
  picked : Bool
  pickTimestamp : Option String
  productCode : Option String
  trackingNumber : Option String
  labelFilename : Option String
  labelCreated : Bool
  labelCreatedAt : Option String
  shipped : Bool
  shippedAt : Option String
  bolShipmentRegistered : Bool
deriving DecidableEq, Repr

/-! ### Picking list generation (`scripts/bol-picking-list.js`) -/

structure Product where
  title : String
  ean : String
deriving DecidableEq, Repr

/-- The `item.offer` object; `reference` may be absent. -/
structure POffer where
  reference : Option String
deriving DecidableEq, Repr

/-- `orderDetails.shipmentDetails`; a missing field is the empty string
(each access in the source is guarded by `|| ''`-style defaults). -/
structure ShipDetails where
  firstName : String
  surname : String
  lastName : String
  streetName : String
  houseNumber : String
  houseNumberExtension : String
  zipCode : String
  city : String
  countryCode : String
  email : String
  phoneNumber : String
deriving DecidableEq, Repr

/-- One entry of `orderDetails.orderItems`.  `rand1`/`rand2` model the two
`Math.random()` draws `generateLocation` makes if its fallback branch runs
for this item. -/
structure SrcItem where
  orderItemId : Option String
  product : Option Product
  offer : Option POffer
  quantity : Nat
  unitPrice : ℚ
  rand1 : Nat
  rand2 : Nat
deriving DecidableEq, Repr

structure OrderDetails where
  orderItems : List SrcItem
  shipmentDetails : ShipDetails
deriving DecidableEq, Repr

/-- What happened for one order inside the `generatePickingList` loop:
details fetched, details missing (`!orderDetails || !orderDetails.orderItems`:
the order is skipped), or the per-order `catch` branch (an error entry is
appended). -/
inductive GenOutcome where
  | fetched (d : OrderDetails)
  | missing
  | failed (msg : String)
deriving DecidableEq, Repr

structure GenOrder where
  orderId : String
  outcome : GenOutcome
deriving DecidableEq, Repr

/-- `generateLocation(product)` from `scripts/bol-picking-list.js` lines
112-126.  `r1`/`r2` are the two `Math.random()` draws of the fallback branch
(`Math.floor(Math.random() * 99) + 1` is modelled as `r1 % 99 + 1`).
`parseInt` of the first EAN character yields its digit value when it is a
digit; on a non-digit it yields `NaN`, and `String.fromCharCode(65 + NaN)`
is the NUL character. -/
def generateLocation (product : Option Product) (r1 r2 : Nat) : String :=
  match product with
  | none => "UNKNOWN"
  | some p =>
    let ean := p.ean
    if 4 ≤ ean.length then
      let cs := ean.toList
      let c0 := cs.headD ' '
      let letter := if c0.isDigit then Char.ofNat (65 + (c0.toNat - 48) % 26) else Char.ofNat 0
      let aisle := String.mk ((cs.drop 1).take 2)
      let shelf := String.mk ((cs.drop 3).take 1)
      String.singleton letter ++ "-" ++ aisle ++ "-" ++ shelf
    else
      "A-" ++ toString (r1 % 99 + 1) ++ "-" ++ toString (r2 % 9 + 1)

/-- `item.offer?.reference`. -/
def offerRef (o : Option POffer) : Option String :=
  o.bind (fun f => f.reference)

/-- The `pickingEntry` object literal (`scripts/bol-picking-list.js` lines
173-217).  `nowMs` models `Date.now()` used in the fallback `OrderItemID`. -/
def buildEntry (orderId : String) (ship : ShipDetails) (it : SrcItem) (nowMs : String) : Item where
  MessageID := orderId
  OrderItemID := jsOrO it.orderItemId ("item_" ++ nowMs)
  FirstName := ship.firstName
  LastName := jsOr ship.surname ship.lastName
  ShipStreet := ship.streetName
  ShipHouseNr := ship.houseNumber
  ShipHouseNrExt := ship.houseNumberExtension
  ShipZipcode := ship.zipCode
  ShipCity := ship.city
  ShipCountrycode := jsOr ship.countryCode "NL"
  ReceiverEmail := ship.email
  ProductTitle := jsOrO (it.product.map (fun p => p.title)) "Unknown Product"
  EAN := (it.product.map (fun p => p.ean)).getD ""
  location := if jsFalsy (offerRef it.offer) then generateLocation it.product it.rand1 it.rand2
              else (offerRef it.offer).getD ""
  picked := false
  pickTimestamp := none
  productCode := none
  trackingNumber := none
  labelFilename := none
  labelCreated := false
  labelCreatedAt := none
  shipped := false
  shippedAt := none
  bolShipmentRegistered := false
  quantity := if it.quantity = 0 then 1 else it.quantity
  price := it.unitPrice

/-- The error entry the per-order `catch` branch pushes (lines 232-243).
The JS object omits the numeric fields entirely (`undefined`); they are
modelled as `0`, and no code path reads them back. -/
def errorEntry (orderId : String) : Item where
  MessageID := orderId
  OrderItemID := ""
  EAN := ""
  ProductTitle := "ERROR: Failed to fetch details"
  location := ""
  FirstName := ""
  LastName := ""
  ShipStreet := ""
  ShipHouseNr := ""
  ShipHouseNrExt := ""
  ShipZipcode := ""
  ShipCity := ""
  ShipCountrycode := ""
  ReceiverEmail := ""
  quantity := 0
  price := 0
  picked := false
  pickTimestamp := none
  productCode := none
  trackingNumber := none
  labelFilename := none
  labelCreated := false
  labelCreatedAt := none
  shipped := false
  shippedAt := none
  bolShipmentRegistered := false

/-- The entries one order contributes to the picking list. -/
def genEntries (nowMs : String) (g : GenOrder) : List Item :=
  match g.outcome with
  | .fetched d => d.orderItems.map (fun it => buildEntry g.orderId d.shipmentDetails it nowMs)
  | .missing => []
  | .failed _ => [errorEntry g.orderId]

/-- The picking list built by a successful `generatePickingList` run
(`scripts/bol-picking-list.js` lines 154-245), one batch of entries per
fetched order in order. -/
def generatePickingList (orders : List GenOrder) (nowMs : String) : List Item :=
  orders.flatMap (genEntries nowMs)

/-! ### Label creation (`scripts/postnl-create-labels.js`) -/

structure RespLabel where
  Content : Option String
deriving DecidableEq, Repr

structure RespShipment where
  Barcode : Option String
  Labels : List RespLabel
deriving DecidableEq, Repr

/-- The JSON body of a successful PostNL label response. -/
structure PostNLResp where
  ResponseShipments : List RespShipment
deriving DecidableEq, Repr

/-- Outcome of one `createPostNLLabel` call: either the call threw (with the
message of the thrown error, after the error-mapping branches of lines
354-368), or an HTTP-success response body, together with whether the
subsequent PDF `fs.writeFile` would succeed. -/
inductive CarrierOutcome where
  | fail (msg : String)
  | ok (resp : PostNLResp) (fsOk : Bool)
deriving DecidableEq, Repr

/-- The tracking-code extraction of `createPostNLLabel` lines 293-303:
start from the message id, replace it by `ResponseShipments[0].Barcode`
when that is present and truthy. -/
def extractTrackingCode (messageId : String) (resp : PostNLResp) : String :=
  match resp.ResponseShipments with
  | [] => messageId
  | rs :: _ =>
    match rs.Barcode with
    | some b => if b = "" then messageId else b
    | none => messageId

/-- `saveLabelPDF` (lines 373-439): returns the saved label's filename
(`path.basename` of the file path, `trackingCode + '.pdf'`), or `null` when
the response holds no shipments, no labels, no content, or the filesystem
write throws. -/
def saveLabelPDF (resp : PostNLResp) (trackingCode : String) (fsOk : Bool) : Option String :=
  match resp.ResponseShipments with
  | [] => none
  | rs :: _ =>
    match rs.Labels with
    | [] => none
    | l :: _ =>
      match l.Content with
      | none => none
      | some c => if c = "" then none else if fsOk then some (trackingCode ++ ".pdf") else none

/-- The per-shipment record `createLabels` pushes onto `labels` (the
fields the server reads back, plus `status`/`error`). -/
structure LabelEntry where
  orderId : String
  orderItemId : String
  status : String
  trackAndTrace : Option String
  labelFilename : Option String
  error : Option String
deriving DecidableEq, Repr

structure LabelsResult where
  success : Bool
  message : String
  labels : List LabelEntry
deriving DecidableEq, Repr

/-- One iteration of the `createLabels` shipment loop: the shipment's
`orderId`, `orderItemId`, the generated `MSG_...` message id, and the
carrier outcome for this call. -/
structure LabelCall where
  orderId : String
  orderItemId : String
  messageId : String
  outcome : CarrierOutcome
deriving DecidableEq, Repr

/-- One iteration of the loop in `createLabels` (lines 469-584): returns the
pushed entry and whether it counted as a success. -/
def processLabelCall (c : LabelCall) : LabelEntry × Bool :=
  if c.orderId = "" then
    (⟨c.orderId, c.orderItemId, "failed", none, none, some "Order ID is required"⟩, false)
  else
    match c.outcome with
    | .fail m => (⟨c.orderId, c.orderItemId, "failed", none, none, some m⟩, false)
    | .ok resp fsOk =>
      let tc := extractTrackingCode c.messageId resp
      (⟨c.orderId, c.orderItemId, "created", some tc, saveLabelPDF resp tc fsOk, none⟩, true)

/-- `createLabels(shipments)` (lines 442-643).  `cfgError` models the
top-level `catch`: `validatePostNLConfig` or `ensureLabelsDirectory`
throwing (missing or placeholder PostNL configuration, directory creation
failure); `some e` carries the thrown message. -/
def createLabels (cfgError : Option String) (calls : List LabelCall) : LabelsResult :=
  match cfgError with
  | some e => ⟨false, "Label creation failed: " ++ e, []⟩
  | none =>
    if calls.isEmpty then
      ⟨false, "No shipments provided for label creation", []⟩
    else
      let processed := calls.map processLabelCall
      let labels := processed.map Prod.fst
      let successCount := (processed.filter (fun p => p.2 = true)).length
      let errorCount := (processed.filter (fun p => p.2 = false)).length
      ⟨decide (0 < successCount),
        "Created " ++ toString successCount ++ " PostNL shipping labels"
          ++ (if 0 < errorCount then " (" ++ toString errorCount ++ " failed)" else ""),
        labels⟩

/-! ### The pick handler (`server.js` lines 306-403) -/

structure PickResponse where
  status : Nat
  success : Bool
  message : String
  trackingNumber : Option String
  labelFilename : Option String
deriving DecidableEq, Repr

/-- The item lookup of the pick handler (lines 330-333): first entry matching
on `(MessageID, OrderItemID)` with a fallback match on `(MessageID, EAN)`. -/
def pickMatch (orderId itemId : String) (i : Item) : Bool :=
  i.MessageID = orderId && (i.OrderItemID = itemId || i.EAN = itemId)

/-- `POST /api/orders/:orderId/items/:itemId/pick`.  `missingVars` is the
list of absent PostNL environment variables (lines 314-327), `cfgError` the
label module's own configuration failure, `messageId` the generated message
id of the single label call, `outcome` the carrier outcome, `now` the
handler's `new Date().toISOString()`.  The single-parcel shipment request the
handler builds from the item's denormalized address fields (lines 343-356)
only feeds the carrier call, whose behaviour is the `outcome` oracle, so it
is not materialized here beyond the `orderId_itemId` reference. -/
def pickStep (s : List Item) (orderId itemId : String) (productCodeBody : Option String)
    (missingVars : List String) (cfgError : Option String) (messageId : String)
    (outcome : CarrierOutcome) (now : String) : PickResponse × List Item :=
  let productCode := productCodeBody.getD "3085"
  if missingVars.isEmpty = false then
    (⟨400, false, "PostNL configuration incomplete. Missing: " ++ String.intercalate ", " missingVars,
      none, none⟩, s)
  else
    match s.findIdx? (pickMatch orderId itemId) with
    | none => (⟨404, false, "Item not found", none, none⟩, s)
    | some j =>
      match s[j]? with
      | none => (⟨404, false, "Item not found", none, none⟩, s)
      | some item =>
        let call : LabelCall :=
          ⟨orderId ++ "_" ++ itemId, itemId, messageId, outcome⟩
        let labelResult := createLabels cfgError [call]
        if labelResult.success = false ∨ labelResult.labels.isEmpty then
          (⟨500, false, "Failed to create shipping label: " ++ labelResult.message, none, none⟩, s)
        else
          match labelResult.labels with
          | [] => (⟨500, false, "Failed to create shipping label: " ++ labelResult.message, none, none⟩, s)
          | label :: _ =>
            let item' := { item with
              picked := true
              pickTimestamp := some now
              productCode := some productCode
              trackingNumber := label.trackAndTrace
              labelFilename := label.labelFilename
              labelCreated := true
              labelCreatedAt := some now }
            (⟨200, true,
              "Item picked as "
                ++ (if productCode = "2928" then "mailbox package" else "normal package")
                ++ " and label created!",
              label.trackAndTrace, label.labelFilename⟩, s.set j item')

/-! ### The ship handler (`server.js` lines 406-502) and
`createShipments` (`scripts/bol-create-shipments.js`) -/

structure BolOrderItem where
  orderItemId : String
  orderId : String
  trackAndTrace : Option String
  firstName : String
  lastName : String
deriving DecidableEq, Repr

/-- The `bolOrderItems` array the ship handler builds (lines 449-455). -/
def bolItemsOf (s : List Item) (orderId : String) : List BolOrderItem :=
  (s.filter (fun i => i.MessageID = orderId)).map
    (fun i => ⟨i.OrderItemID, orderId, i.trackingNumber, i.FirstName, i.LastName⟩)

structure ShipmentsResult where
  success : Bool
  message : String
deriving DecidableEq, Repr

/-- `createShipments(orderItems)` from `scripts/bol-create-shipments.js`.
`credsOk` models the CLIENT_ID/CLIENT_SECRET presence check, `tokenOk`
the token fetch, and `outcome i` whether the i-th per-item
`POST /retailer/shipments` call succeeds.  Per-item failures are caught and
counted; `success` is `successCount > 0`. -/
def createShipments (credsOk tokenOk : Bool) (orderItems : List BolOrderItem)
    (outcome : Nat → Bool) : ShipmentsResult :=
  if credsOk = false then
    ⟨false, "Failed to create PostNL shipments: CLIENT_ID and CLIENT_SECRET must be set in environment variables"⟩
  else if tokenOk = false then
    ⟨false, "Failed to create PostNL shipments: Authentication failed"⟩
  else
    let successCount := ((List.range orderItems.length).filter (fun i => outcome i = true)).length
    let errorCount := orderItems.length - successCount
    ⟨decide (0 < successCount),
      "Created " ++ toString successCount ++ " PostNL shipments successfully"
        ++ (if 0 < errorCount then " (" ++ toString errorCount ++ " failed)" else "")
        ++ " using BOL transporter code: TNT"⟩

structure ShipResponse where
  status : Nat
  success : Bool
  message : String
  trackingNumbers : List String
  marketplaceCalls : Nat
deriving DecidableEq, Repr

/-- `[...new Set(xs)]`: de-duplicate keeping first occurrences. -/
def firstDedup (l : List String) : List String :=
  l.foldl (fun acc x => if acc.contains x then acc else acc ++ [x]) []

/-- `POST /api/orders/:orderId/ship`.  `marketplaceCalls` counts the
`createShipments` invocations the handler performed (0 or 1). -/
def shipStep (s : List Item) (orderId : String) (credsOk tokenOk : Bool)
    (outcome : Nat → Bool) (now : String) : ShipResponse × List Item :=
  if credsOk = false then
    (⟨400, false,
      "BOL.com API credentials not configured. Please set CLIENT_ID and CLIENT_SECRET environment variables.",
      [], 0⟩, s)
  else
    let orderItems := s.filter (fun i => i.MessageID = orderId)
    if orderItems.isEmpty then
      (⟨404, false, "Order not found", [], 0⟩, s)
    else
      let unpicked := orderItems.filter (fun i => i.picked = false)
      if unpicked.isEmpty = false then
        (⟨400, false,
          "Cannot ship order. " ++ toString unpicked.length ++ " items not yet picked.",
          [], 0⟩, s)
      else
        let withoutLabels := orderItems.filter (fun i => jsFalsy i.trackingNumber)
        if withoutLabels.isEmpty = false then
          (⟨400, false,
            "Cannot ship order. " ++ toString withoutLabels.length
              ++ " items don" ++ apos ++ "t have labels created.",
            [], 0⟩, s)
        else
          let result := createShipments credsOk tokenOk (bolItemsOf s orderId) outcome
          if result.success then
            let s' := s.map (fun i =>
              if i.MessageID = orderId then
                { i with shipped := true, shippedAt := some now, bolShipmentRegistered := true }
              else i)
            let tns := firstDedup (orderItems.map (fun i => i.trackingNumber.getD ""))
            (⟨200, true,
              "Order shipped successfully! " ++ toString tns.length
                ++ " labels already created and registered with BOL.com",
              tns, 1⟩, s')
          else
            (⟨500, false,
              "Failed to register shipment with BOL.com: " ++ result.message
                ++ ". Labels were already created successfully.",
              [], 1⟩, s)

/-! ### The fetch-orders handler (`server.js` lines 182-229) -/

structure FetchResponse where
  status : Nat
  success : Bool
deriving DecidableEq, Repr

/-- `POST /api/fetch-orders`: on a successful `fetchOrders()` the handler
replaces `currentPickingList` wholesale with the output of a fresh
`generatePickingList()` run (modelled by `gen`; `none` models a
`success: false` generation result, which leaves the list untouched). -/
def fetchOrdersStep (s : List Item) (credsOk fetchOk : Bool)
    (gen : Option (List GenOrder)) (nowMs : String) : FetchResponse × List Item :=
  if credsOk = false then (⟨400, false⟩, s)
  else if fetchOk = false then (⟨500, false⟩, s)
  else
    match gen with
    | none => (⟨200, true⟩, s)
    | some orders => (⟨200, true⟩, generatePickingList orders nowMs)

/-- The states of `currentPickingList` reachable from server start by any
sequence of fetch-orders, pick and ship operations. -/
inductive Reach : List Item → Prop where
  | start : Reach []
  | fetch (s : List Item) (credsOk fetchOk : Bool) (gen : Option (List GenOrder)) (nowMs : String) :
      Reach s → Reach (fetchOrdersStep s credsOk fetchOk gen nowMs).2
  | pick (s : List Item) (orderId itemId : String) (pc : Option String) (missing : List String)
      (cfgError : Option String) (messageId : String) (outcome : CarrierOutcome) (now : String) :
      Reach s → Reach (pickStep s orderId itemId pc missing cfgError messageId outcome now).2
  | ship (s : List Item) (orderId : String) (credsOk tokenOk : Bool) (outcome : Nat → Bool)
      (now : String) :
      Reach s → Reach (shipStep s orderId credsOk tokenOk outcome now).2

/-! ### Concrete fixtures used by witnesses and counterexamples -/

/-- A marketplace order with one line item, as consumed by
`generatePickingList`. -/
def sampleOrder : GenOrder :=
  ⟨"1001", .fetched ⟨[⟨some "A", some ⟨"Widget", "8711234567890"⟩, none, 1, 0, 0, 0⟩,
    ⟨some "B", some ⟨"Gadget", "8711234567906"⟩, none, 1, 0, 0, 0⟩],
    ⟨"Jan", "Jans", "", "Main", "1", "", "1000AA", "Adam", "NL", "jan@x.nl", ""⟩⟩⟩

/-- A PostNL response with a barcode and label content (the normal case). -/
def goodResp : PostNLResp :=
  ⟨[⟨some "3SABCDEFGHIJKLMNL", [⟨some "JVBERi0xLjQ"⟩]⟩]⟩

/-- The picking list after a fetch and one successful pick of item A. -/
def pickedState : List Item :=
  (pickStep (generatePickingList [sampleOrder] "170") "1001" "A" none [] none "MSG_1"
    (CarrierOutcome.ok goodResp true) "now").2

/-- The picking list after a fetch and a pick of item A whose carrier call
returned HTTP success with an empty `ResponseShipments` array. -/
def malformedPickState : List Item :=
  (pickStep (generatePickingList [sampleOrder] "170") "1001" "A" none [] none "MSG_1"
    (CarrierOutcome.ok ⟨[]⟩ true) "now").2

/-- A one-item order whose single item is picked with a label, ready to
ship. -/
def readyState : List Item :=
  (pickStep (generatePickingList
      [⟨"1001", .fetched ⟨[⟨some "A", some ⟨"Widget", "8711234567890"⟩, none, 1, 0, 0, 0⟩],
        ⟨"Jan", "Jans", "", "Main", "1", "", "1000AA", "Adam", "NL", "jan@x.nl", ""⟩⟩⟩] "170")
    "1001" "A" none [] none "MSG_1" (CarrierOutcome.ok goodResp true) "now").2

/-- The picking entry `generatePickingList [sampleOrder] "170"` produces for
item A (checked by `decide` where used). -/
def sampleItemA : Item where
  MessageID := "1001"
  OrderItemID := "A"
  EAN := "8711234567890"
  ProductTitle := "Widget"
  location := "I-71-1"
  FirstName := "Jan"
  LastName := "Jans"
  ShipStreet := "Main"
  ShipHouseNr := "1"
  ShipHouseNrExt := ""
  ShipZipcode := "1000AA"
  ShipCity := "Adam"
  ShipCountrycode := "NL"
  ReceiverEmail := "jan@x.nl"
  quantity := 1
  price := 0
  picked := false
  pickTimestamp := none
  productCode := none
  trackingNumber := none
  labelFilename := none
  labelCreated := false
  labelCreatedAt := none
  shipped := false
  shippedAt := none
  bolShipmentRegistered := false

/-! ## Helper lemmas -/

lemma round2_eq_of (q : ℚ) (n : ℤ) (h1 : (n : ℚ) ≤ q * 100 + 1 / 2)
    (h2 : q * 100 + 1 / 2 < n + 1) : round2 q = (n : ℚ) / 100 := by
  unfold round2
  rw [Int.floor_eq_iff.mpr ⟨h1, h2⟩]

lemma round2_mono {a b : ℚ} (h : a ≤ b) : round2 a ≤ round2 b := by
  unfold round2
  have hf : ⌊a * 100 + 1 / 2⌋ ≤ ⌊b * 100 + 1 / 2⌋ := Int.floor_le_floor (by linarith)
  have hq : ((⌊a * 100 + 1 / 2⌋ : ℤ) : ℚ) ≤ ((⌊b * 100 + 1 / 2⌋ : ℤ) : ℚ) := by exact_mod_cast hf
  linarith

lemma round2_seven_half : round2 (7.5 : ℚ) = 7.5 := by
  rw [round2_eq_of (7.5 : ℚ) 750 (by norm_num) (by norm_num)]
  norm_num

lemma round2_max_le (t : ℚ) : round2 (max t 7.5) ≤ max (round2 t) 7.5 := by
  rcases le_total t 7.5 with h | h
  · rw [max_eq_right h, round2_seven_half]
    exact le_max_right _ _
  · rw [max_eq_left h]
    exact le_max_left _ _

lemma findNearestBetter_get (comp : Competitors) (l : List Cond) (d0 : Nat) (up : Cond)
    (q : ℚ) (d : Nat) (h : findNearestBetter comp l d0 = some (up, q, d)) :
    comp.get up = some q := by
  induction l generalizing d0 with
  | nil => simp [findNearestBetter] at h
  | cons k rest ih =>
    rw [findNearestBetter] at h
    cases hk : comp.get k with
    | some v =>
      rw [hk] at h
      obtain ⟨rfl, rfl, rfl⟩ : k = up ∧ v = q ∧ d0 = d := by
        simpa using h
      exact hk
    | none =>
      rw [hk] at h
      exact ih _ h

lemma nearestBetter_anyData (myCond : Cond) (comp : Competitors) (up : Cond) (q : ℚ) (d : Nat)
    (h : nearestBetter myCond comp = some (up, q, d)) : anyData comp = true := by
  have hg := findNearestBetter_get comp (betterConds myCond) 1 up q d h
  cases up <;> simp [Competitors.get] at hg <;> simp [anyData, hg]

lemma advisePrice_fst_shape (myPrice : ℚ) (myCond : Cond) (comp : Competitors) (p : ℚ)
    (hAny : anyData comp = true)
    (hp : (advisePrice myPrice myCond comp).map Prod.fst = some p) :
    ∃ c rest, candidatesFor myPrice myCond comp = c :: rest ∧
      p = round2 (applyFloor (clampBetter myCond comp (minCandidate c rest).val).1) := by
  rw [advisePrice, hAny] at hp
  simp only [Bool.true_eq_false, if_false] at hp
  cases hc : candidatesFor myPrice myCond comp with
  | nil => rw [hc] at hp; simp at hp
  | cons c rest =>
    rw [hc] at hp
    simp only [Option.map_some] at hp
    exact ⟨c, rest, rfl, (Option.some_injective _ hp).symm⟩

lemma clampBetter_fst_le (myCond : Cond) (comp : Competitors) (v : ℚ) (up : Cond) (q : ℚ)
    (d : Nat) (hnb : nearestBetter myCond comp = some (up, q, d)) :
    (clampBetter myCond comp v).1 ≤ q * (0.775 : ℚ) ^ d := by
  rw [clampBetter, hnb]
  dsimp only
  split
  · exact le_refl _
  · next h => exact le_of_not_lt h

lemma applyFloor_le_max (v t : ℚ) (h : v ≤ t) : applyFloor v ≤ max t 7.5 := by
  rw [applyFloor]
  split
  · exact le_max_right _ _
  · exact le_trans h (le_max_left _ _)

lemma append_underscore_ne (a b : String) : ¬ (a ++ "_" ++ b = "") := by
  intro h
  have hl := congrArg String.length h
  rw [String.length_append, String.length_append] at hl
  have h1 : ("_" : String).length = 1 := rfl
  have h0 : ("" : String).length = 0 := rfl
  rw [h1, h0] at hl
  omega

lemma generatePickingList_fresh (orders : List GenOrder) (nowMs : String) :
    ∀ i ∈ generatePickingList orders nowMs, i.picked = false ∧ i.trackingNumber = none := by
  intro i hi
  rw [generatePickingList, List.mem_flatMap] at hi
  obtain ⟨g, _, hg⟩ := hi
  rcases g with ⟨oid, out⟩
  cases out with
  | fetched d =>
    simp only [genEntries, List.mem_map] at hg
    obtain ⟨it, _, rfl⟩ := hg
    exact ⟨rfl, rfl⟩
  | missing => simp [genEntries] at hg
  | failed m =>
    simp only [genEntries, List.mem_singleton] at hg
    subst hg
    exact ⟨rfl, rfl⟩

lemma createLabels_single_fail (oid iid msgId m : String) (h : ¬ oid = "") :
    createLabels none [⟨oid, iid, msgId, .fail m⟩] =
      ⟨false, "Created 0 PostNL shipping labels (1 failed)",
        [⟨oid, iid, "failed", none, none, some m⟩]⟩ := by
  simp only [createLabels, List.map_cons, List.map_nil, processLabelCall, if_neg h,
    List.isEmpty_cons, List.filter, List.length]
  norm_num
  try rfl

lemma createLabels_single_ok (oid iid msgId : String) (resp : PostNLResp) (fsOk : Bool)
    (h : ¬ oid = "") :
    createLabels none [⟨oid, iid, msgId, .ok resp fsOk⟩] =
      ⟨true, "Created 1 PostNL shipping labels",
        [⟨oid, iid, "created", some (extractTrackingCode msgId resp),
          saveLabelPDF resp (extractTrackingCode msgId resp) fsOk, none⟩]⟩ := by
  simp only [createLabels, List.map_cons, List.map_nil, processLabelCall, if_neg h,
    List.isEmpty_cons, List.filter, List.length]
  norm_num
  try rfl

lemma pickStep_snd_cases (s : List Item) (oid iid : String) (pc : Option String)
    (missing : List String) (cfg : Option String) (msgId : String) (outcome : CarrierOutcome)
    (now : String) :
    (pickStep s oid iid pc missing cfg msgId outcome now).2 = s ∨
    ∃ j item tc lf, s[j]? = some item ∧
      (pickStep s oid iid pc missing cfg msgId outcome now).2 =
        s.set j { item with
          picked := true
          pickTimestamp := some now
          productCode := some (pc.getD "3085")
          trackingNumber := some tc
          labelFilename := lf
          labelCreated := true
          labelCreatedAt := some now } := by
  by_cases hm : missing.isEmpty = false
  · left; simp [pickStep, hm]
  · cases hidx : s.findIdx? (pickMatch oid iid) with
    | none => left; simp [pickStep, hm, hidx]
    | some j =>
      cases hget : s[j]? with
      | none => left; simp [pickStep, hm, hidx, hget]
      | some item =>
        have hne := append_underscore_ne oid iid
        cases cfg with
        | some e => left; simp [pickStep, hm, hidx, hget, createLabels]
        | none =>
          cases outcome with
          | fail m =>
            left
            simp [pickStep, hm, hidx, hget, createLabels_single_fail _ _ _ _ hne]
          | ok resp fsOk =>
            right
            refine ⟨j, item, extractTrackingCode msgId resp,
              saveLabelPDF resp (extractTrackingCode msgId resp) fsOk, hget, ?_⟩
            simp [pickStep, hm, hidx, hget, createLabels_single_ok _ _ _ _ _ hne]

lemma shipStep_snd_cases (s : List Item) (oid : String) (c t : Bool) (outcome : Nat → Bool)
    (now : String) :
    (shipStep s oid c t outcome now).2 = s ∨
    (shipStep s oid c t outcome now).2 = s.map (fun i =>
      if i.MessageID = oid then
        { i with
          shipped := true
          shippedAt := some now
          bolShipmentRegistered := true }
      else i) := by
  simp only [shipStep]
  split
  · exact Or.inl rfl
  · split
    · exact Or.inl rfl
    · split
      · exact Or.inl rfl
      · split
        · exact Or.inl rfl
        · split
          · exact Or.inr rfl
          · exact Or.inl rfl

lemma fetchOrdersStep_snd_cases (s : List Item) (c f : Bool) (gen : Option (List GenOrder))
    (nowMs : String) :
    (fetchOrdersStep s c f gen nowMs).2 = s ∨
    ∃ orders, (fetchOrdersStep s c f gen nowMs).2 = generatePickingList orders nowMs := by
  simp only [fetchOrdersStep]
  split
  · exact Or.inl rfl
  · split
    · exact Or.inl rfl
    · cases gen with
      | none => exact Or.inl rfl
      | some orders => exact Or.inr ⟨orders, rfl⟩

/-! ## Claims -/

/-- C6: for every my-price and my-condition, if no competitor has a price at
any of the five condition tiers (all tiers no data), the Price Advisor
returns exactly 45.00 together with an explanation string. -/
theorem advisePrice_no_competition_fallback (myPrice : ℚ) (myCond : Cond) :
    advisePrice myPrice myCond ⟨none, none, none, none, none⟩ =
      some (45.00, "geen concurrentie, fallback €45,00") := rfl

/-- C8: for my condition GOOD at price 10.00 with the only competitor data
GOOD at 9.00, the Price Advisor returns 8.95, which is at most 8.95
(an undercut of at least 0.05) and at least the absolute floor 7.50. -/
theorem advisePrice_good_undercut_floor :
    (advisePrice 10 Cond.GOOD ⟨none, none, some 9, none, none⟩).map Prod.fst = some (8.95 : ℚ)
    ∧ (8.95 : ℚ) ≤ 8.95 ∧ (7.5 : ℚ) ≤ 8.95 := by
  have h95 : round2 (179 / 20 : ℚ) = 179 / 20 := by
    rw [round2_eq_of (179 / 20 : ℚ) 895 (by norm_num) (by norm_num)]
    norm_num
  refine ⟨?_, by norm_num, by norm_num⟩
  norm_num [advisePrice, anyData, candidatesFor, minCandidate, clampBetter, nearestBetter,
    findNearestBetter, betterConds, Competitors.get, applyFloor, h95]

/-- C10: when my condition is NEW, no competitor has NEW-tier data, and some
other tier has data, the candidate list is empty and `advisePrice` throws
(the `reduce` over an empty array), modelled as `none`. -/
theorem advisePrice_new_no_data_throws (myPrice : ℚ) (comp : Competitors)
    (h1 : comp.NEW = none) (h2 : anyData comp = true) :
    candidatesFor myPrice Cond.NEW comp = [] ∧ advisePrice myPrice Cond.NEW comp = none := by
  have hc : candidatesFor myPrice Cond.NEW comp = [] := by
    simp [candidatesFor, h1]
  refine ⟨hc, ?_⟩
  rw [advisePrice, h2]
  simp only [Bool.true_eq_false, if_false, hc]

/-- Witness for C10 at a concrete input: my condition NEW, NEW tier empty,
AS_NEW tier has a competitor at 10. -/
theorem advisePrice_new_no_data_throws_witness :
    candidatesFor 5 Cond.NEW ⟨none, some 10, none, none, none⟩ = []
    ∧ advisePrice 5 Cond.NEW ⟨none, some 10, none, none, none⟩ = none :=
  advisePrice_new_no_data_throws 5 ⟨none, some 10, none, none, none⟩ rfl rfl

/-- C5 counterexample: with my condition GOOD, competitor NEW at 1.00 and
competitor AS_NEW at 100.00, the advisor returns 77.50, but the claim as
stated demands at most `1.00 × 0.775²` against the better NEW tier: the
clamping loop stops at the nearest better tier with data (AS_NEW) and never
checks NEW. -/
theorem advisePrice_every_better_tier_counterexample :
    (advisePrice 50 Cond.GOOD ⟨some 1, some 100, none, none, none⟩).map Prod.fst
      = some (77.5 : ℚ)
    ∧ (Competitors.get ⟨some 1, some 100, none, none, none⟩ Cond.NEW = some 1
        ∧ ¬ ((77.5 : ℚ) ≤ 1 * (0.775 : ℚ) ^ 2)) := by
  have h775 : round2 (155 / 2 : ℚ) = 155 / 2 := by
    rw [round2_eq_of (155 / 2 : ℚ) 7750 (by norm_num) (by norm_num)]
    norm_num
  refine ⟨?_, rfl, by norm_num⟩
  norm_num [advisePrice, anyData, candidatesFor, minCandidate, clampBetter, nearestBetter,
    findNearestBetter, betterConds, Competitors.get, applyFloor, h775]

/-- C5 amended: whenever `advisePrice` returns a price and some strictly
better tier has competitor data, the price does not exceed
`max (round2 (competitor[nearest] × 0.775 ^ distance)) 7.50`, where
`nearest` is the closest better tier with data — the code clamps only
against that tier, then raises the result to the 7.50 floor and rounds to
two decimals. -/
theorem advisePrice_clamped_to_nearest_better (myPrice : ℚ) (myCond : Cond)
    (comp : Competitors) (p : ℚ) (up : Cond) (q : ℚ) (d : Nat)
    (hres : (advisePrice myPrice myCond comp).map Prod.fst = some p)
    (hnb : nearestBetter myCond comp = some (up, q, d)) :
    p ≤ max (round2 (q * (0.775 : ℚ) ^ d)) 7.5 := by
  have hAny := nearestBetter_anyData myCond comp up q d hnb
  obtain ⟨c, rest, hc, hp⟩ := advisePrice_fst_shape myPrice myCond comp p hAny hres
  subst hp
  have h1 := clampBetter_fst_le myCond comp (minCandidate c rest).val up q d hnb
  have h2 := applyFloor_le_max _ _ h1
  exact le_trans (round2_mono h2) (round2_max_le _)

/-- Witness for the amended C5 at a concrete input: my condition GOOD with
only AS_NEW competitor data at 100.00; the advisor returns 77.50, within
the nearest-better-tier bound. -/
theorem advisePrice_clamped_to_nearest_better_witness :
    (77.5 : ℚ) ≤ max (round2 ((100 : ℚ) * (0.775 : ℚ) ^ 1)) 7.5 :=
  advisePrice_clamped_to_nearest_better 50 Cond.GOOD ⟨none, some 100, none, none, none⟩
    77.5 Cond.AS_NEW 100 1
    (by
      have h775 : round2 (155 / 2 : ℚ) = 155 / 2 := by
        rw [round2_eq_of (155 / 2 : ℚ) 7750 (by norm_num) (by norm_num)]
        norm_num
      norm_num [advisePrice, anyData, candidatesFor, minCandidate, clampBetter, nearestBetter,
        findNearestBetter, betterConds, Competitors.get, applyFloor, h775])
    rfl

/-- C1 counterexample: starting from a freshly generated picking list, one
pick whose carrier call returns HTTP success with an empty
`ResponseShipments` array reaches a state whose item is `picked` with no
label file reference: marking picked is not atomic with label creation. -/
theorem picked_atomic_label_counterexample :
    Reach malformedPickState
    ∧ ∃ i ∈ malformedPickState, i.picked = true ∧ i.labelFilename = none :=
  ⟨Reach.pick _ "1001" "A" none [] none "MSG_1" (CarrierOutcome.ok ⟨[]⟩ true) "now"
      (Reach.fetch [] true true (some [sampleOrder]) "170" Reach.start),
    by decide⟩

/-- C1 amended: in every state reachable by fetch-orders, pick and ship
operations, an item is `picked` exactly when its `trackingNumber` is set;
the label file reference may still be `null` for a picked item (when the
carrier response carried no saveable label PDF), so only the tracking half
of the invariant holds. -/
theorem picked_iff_trackingNumber (s : List Item) (h : Reach s) :
    ∀ i ∈ s, i.picked = true ↔ i.trackingNumber ≠ none := by
  induction h with
  | start => intro i hi; exact absurd hi (List.not_mem_nil i)
  | fetch s c f gen nowMs hr ih =>
    rcases fetchOrdersStep_snd_cases s c f gen nowMs with he | ⟨orders, he⟩
    · rw [he]; exact ih
    · rw [he]
      intro i hi
      obtain ⟨h1, h2⟩ := generatePickingList_fresh orders nowMs i hi
      rw [h1, h2]
      simp
  | pick s oid iid pc missing cfg msgId outcome now hr ih =>
    rcases pickStep_snd_cases s oid iid pc missing cfg msgId outcome now with
      he | ⟨j, item, tc, lf, hget, he⟩
    · rw [he]; exact ih
    · rw [he]
      intro i hi
      rcases List.mem_or_eq_of_mem_set hi with h1 | rfl
      · exact ih i h1
      · simp
  | ship s oid c t outcome now hr ih =>
    rcases shipStep_snd_cases s oid c t outcome now with he | he
    · rw [he]; exact ih
    · rw [he]
      intro i hi
      obtain ⟨x, hx, rfl⟩ := List.mem_map.mp hi
      have hx2 := ih x hx
      by_cases hm : x.MessageID = oid
      · simpa [hm] using hx2
      · simpa [hm] using hx2

/-- Witness for the amended C1: the invariant evaluated at the first entry of
the concrete reachable state after one fetch and one successful pick. -/
theorem picked_iff_trackingNumber_witness :
    (pickedState.head?.getD sampleItemA).picked = true
      ↔ (pickedState.head?.getD sampleItemA).trackingNumber ≠ none :=
  picked_iff_trackingNumber pickedState
    (Reach.pick _ "1001" "A" none [] none "MSG_1" (CarrierOutcome.ok goodResp true) "now"
      (Reach.fetch [] true true (some [sampleOrder]) "170" Reach.start))
    (pickedState.head?.getD sampleItemA) (by decide)

/-- C3 counterexample: a pick whose carrier call returns HTTP success with an
empty `ResponseShipments` array modifies the item (`picked` becomes true)
although the label response is empty, and on a genuine carrier failure the
handler's error message is the same fixed batch summary whatever the
carrier's error message was — the carrier message is not surfaced. -/
theorem pick_error_surfacing_counterexample :
    (∃ i ∈ malformedPickState, i.picked = true)
    ∧ (pickStep (generatePickingList [sampleOrder] "170") "1001" "A" none [] none "MSG_1"
        (CarrierOutcome.fail "boom") "now").1.message
      = (pickStep (generatePickingList [sampleOrder] "170") "1001" "A" none [] none "MSG_1"
        (CarrierOutcome.fail "a completely different carrier error") "now").1.message :=
  ⟨by decide, by decide⟩

/-- C3 amended: when the carrier call throws, the pick handler leaves the
picking list unmodified and returns a 500 whose message is the label
module's batch summary (not the carrier's message); when the carrier call
returns HTTP success with an empty `ResponseShipments` array, the handler
treats it as success and marks the item picked with the generated message
id as tracking number and no label file reference. -/
theorem pick_carrier_failure_behavior (s : List Item) (orderId itemId : String)
    (pc : Option String) (messageId now : String) (j : Nat) (item : Item)
    (hj : s.findIdx? (pickMatch orderId itemId) = some j)
    (hitem : s[j]? = some item) :
    (∀ m, pickStep s orderId itemId pc [] none messageId (CarrierOutcome.fail m) now =
      (⟨500, false, "Failed to create shipping label: Created 0 PostNL shipping labels (1 failed)",
        none, none⟩, s))
    ∧ ∀ resp fsOk, resp.ResponseShipments = [] →
        pickStep s orderId itemId pc [] none messageId (CarrierOutcome.ok resp fsOk) now =
          (⟨200, true, "Item picked as "
              ++ (if pc.getD "3085" = "2928" then "mailbox package" else "normal package")
              ++ " and label created!", some messageId, none⟩,
            s.set j { item with
              picked := true
              pickTimestamp := some now
              productCode := some (pc.getD "3085")
              trackingNumber := some messageId
              labelFilename := none
              labelCreated := true
              labelCreatedAt := some now }) := by
  have hne := append_underscore_ne orderId itemId
  constructor
  · intro m
    simp [pickStep, hj, hitem, createLabels_single_fail _ _ _ _ hne]
  · intro resp fsOk hresp
    rcases resp with ⟨rs⟩
    simp only at hresp
    subst hresp
    simp [pickStep, hj, hitem, createLabels_single_ok _ _ _ _ _ hne,
      extractTrackingCode, saveLabelPDF]

/-- Witness for the amended C3 on the concrete generated picking list, with
the carrier failing with message boom, and with an empty success
response. -/
theorem pick_carrier_failure_behavior_witness :
    (pickStep (generatePickingList [sampleOrder] "170") "1001" "A" none [] none "MSG_1"
        (CarrierOutcome.fail "boom") "now" =
      (⟨500, false, "Failed to create shipping label: Created 0 PostNL shipping labels (1 failed)",
        none, none⟩, generatePickingList [sampleOrder] "170"))
    ∧ pickStep (generatePickingList [sampleOrder] "170") "1001" "A" none [] none "MSG_1"
        (CarrierOutcome.ok ⟨[]⟩ true) "now" =
      (⟨200, true, "Item picked as normal package and label created!", some "MSG_1", none⟩,
        (generatePickingList [sampleOrder] "170").set 0 { sampleItemA with
          picked := true
          pickTimestamp := some "now"
          productCode := some "3085"
          trackingNumber := some "MSG_1"
          labelFilename := none
          labelCreated := true
          labelCreatedAt := some "now" }) :=
  ⟨(pick_carrier_failure_behavior (generatePickingList [sampleOrder] "170") "1001" "A" none
      "MSG_1" "now" 0 sampleItemA (by decide) (by decide)).1 "boom",
    (pick_carrier_failure_behavior (generatePickingList [sampleOrder] "170") "1001" "A" none
      "MSG_1" "now" 0 sampleItemA (by decide) (by decide)).2 ⟨[]⟩ true rfl⟩

/-- C2: for an existing order whose items are all picked and all carry
truthy tracking numbers, the ship handler is atomic with respect to the
`createShipments` marketplace registration result: on failure the picking
list is unchanged (no item marked shipped); on success every item of the
order is marked `shipped` with `shippedAt = now`, and items of other orders
are untouched. -/
theorem ship_registration_atomicity (s : List Item) (orderId now : String) (tokenOk : Bool)
    (outcome : Nat → Bool)
    (hex : (s.filter (fun i => i.MessageID = orderId)).isEmpty = false)
    (hpicked : ∀ i ∈ s, i.MessageID = orderId → i.picked = true)
    (hlab : ∀ i ∈ s, i.MessageID = orderId → jsFalsy i.trackingNumber = false) :
    ((createShipments true tokenOk (bolItemsOf s orderId) outcome).success = false →
      (shipStep s orderId true tokenOk outcome now).2 = s)
    ∧ ((createShipments true tokenOk (bolItemsOf s orderId) outcome).success = true →
      (∀ i ∈ (shipStep s orderId true tokenOk outcome now).2,
          i.MessageID = orderId → i.shipped = true ∧ i.shippedAt = some now)
      ∧ ∀ i ∈ (shipStep s orderId true tokenOk outcome now).2, i.MessageID ≠ orderId → i ∈ s) := by
  have hu : (s.filter (fun i => i.MessageID = orderId)).filter (fun i => i.picked = false)
      = [] := by
    rw [List.filter_eq_nil_iff]
    intro a ha
    obtain ⟨has, hmsg⟩ := List.mem_filter.mp ha
    have hp : a.picked = true := hpicked a has (by simpa using hmsg)
    simp [hp]
  have hw : (s.filter (fun i => i.MessageID = orderId)).filter (fun i => jsFalsy i.trackingNumber)
      = [] := by
    rw [List.filter_eq_nil_iff]
    intro a ha
    obtain ⟨has, hmsg⟩ := List.mem_filter.mp ha
    have hl := hlab a has (by simpa using hmsg)
    simp [hl]
  have hc1 : ¬((true : Bool) = false) := by decide
  have hc2 : ¬((s.filter (fun i => i.MessageID = orderId)).isEmpty = true) := by
    rw [hex]; decide
  have hc3 : ¬(((s.filter (fun i => i.MessageID = orderId)).filter
      (fun i => i.picked = false)).isEmpty = false) := by
    rw [hu]; decide
  have hc4 : ¬(((s.filter (fun i => i.MessageID = orderId)).filter
      (fun i => jsFalsy i.trackingNumber)).isEmpty = false) := by
    rw [hw]; decide
  constructor
  · intro hres
    simp only [shipStep]
    rw [if_neg hc1, if_neg hc2, if_neg hc3, if_neg hc4, if_neg (by simp [hres])]
  · intro hres
    have hsnd : (shipStep s orderId true tokenOk outcome now).2 = s.map (fun i =>
        if i.MessageID = orderId then
          { i with
            shipped := true
            shippedAt := some now
            bolShipmentRegistered := true }
        else i) := by
      simp only [shipStep]
      rw [if_neg hc1, if_neg hc2, if_neg hc3, if_neg hc4, if_pos hres]
    rw [hsnd]
    constructor
    · intro i hi hio
      obtain ⟨x, hx, rfl⟩ := List.mem_map.mp hi
      by_cases hmx : x.MessageID = orderId
      · simp [hmx]
      · simp only [if_neg hmx] at hio ⊢
        exact absurd hio hmx
    · intro i hi hio
      obtain ⟨x, hx, rfl⟩ := List.mem_map.mp hi
      by_cases hmx : x.MessageID = orderId
      · exfalso
        apply hio
        simp [hmx]
      · simpa [hmx] using hx

/-- Witness for C2 on a concrete one-item ready-to-ship order with a
successful registration. -/
theorem ship_registration_atomicity_witness :
    ((createShipments true true (bolItemsOf readyState "1001") (fun _ => true)).success = false →
      (shipStep readyState "1001" true true (fun _ => true) "later").2 = readyState)
    ∧ ((createShipments true true (bolItemsOf readyState "1001") (fun _ => true)).success = true →
      (∀ i ∈ (shipStep readyState "1001" true true (fun _ => true) "later").2,
          i.MessageID = "1001" → i.shipped = true ∧ i.shippedAt = some "later")
      ∧ ∀ i ∈ (shipStep readyState "1001" true true (fun _ => true) "later").2,
          i.MessageID ≠ "1001" → i ∈ readyState) :=
  ship_registration_atomicity readyState "1001" "later" true (fun _ => true)
    (by decide) (by decide) (by decide)

/-- C7: for an existing order with at least one unpicked item (and the BOL
credentials configured), the ship handler returns a 400 precondition error
naming the number of unpicked items, performs zero marketplace calls, and
leaves the picking list unchanged. -/
theorem ship_unpicked_precondition (s : List Item) (orderId : String) (tokenOk : Bool)
    (outcome : Nat → Bool) (now : String)
    (hex : (s.filter (fun i => i.MessageID = orderId)).isEmpty = false)
    (hun : ((s.filter (fun i => i.MessageID = orderId)).filter
      (fun i => i.picked = false)).isEmpty = false) :
    shipStep s orderId true tokenOk outcome now =
      (⟨400, false,
        "Cannot ship order. "
          ++ toString ((s.filter (fun i => i.MessageID = orderId)).filter
              (fun i => i.picked = false)).length
          ++ " items not yet picked.", [], 0⟩, s) := by
  have hc1 : ¬((true : Bool) = false) := by decide
  have hc2 : ¬((s.filter (fun i => i.MessageID = orderId)).isEmpty = true) := by
    rw [hex]; decide
  simp only [shipStep]
  rw [if_neg hc1, if_neg hc2, if_pos hun]

/-- Witness for C7: the freshly generated two-item order, both items
unpicked. -/
theorem ship_unpicked_precondition_witness :
    shipStep (generatePickingList [sampleOrder] "170") "1001" true true (fun _ => true) "now" =
      (⟨400, false, "Cannot ship order. 2 items not yet picked.", [], 0⟩,
        generatePickingList [sampleOrder] "170") :=
  ship_unpicked_precondition (generatePickingList [sampleOrder] "170") "1001" true
    (fun _ => true) "now" (by decide) (by decide)

/-- C4: re-fetching orders wipes picked state.  In the concrete scenario the
picking list holds item A picked with its tracking number; after a
successful `POST /api/fetch-orders` (which regenerates the picking list and
replaces it wholesale, with no merge) every entry is unpicked with no
tracking number — the claim (and spec) require the picked item's `picked`
flag and `trackingNumber` to be preserved. -/
theorem refetch_wipes_picked_state :
    (∃ i ∈ pickedState, i.picked = true ∧ i.trackingNumber = some "3SABCDEFGHIJKLMNL")
    ∧ ∀ i ∈ (fetchOrdersStep pickedState true true (some [sampleOrder]) "171").2,
        i.picked = false ∧ i.trackingNumber = none :=
  ⟨by decide, by decide⟩

/-- C9 counterexample: for a product whose EAN is shorter than 4 characters
the fallback branch of `generateLocation` uses `Math.random()`, so two runs
on the same product can yield different locations. -/
theorem generateLocation_random_counterexample :
    ¬ (generateLocation (some ⟨"Gadget", "12"⟩) 0 0
        = generateLocation (some ⟨"Gadget", "12"⟩) 1 0) := by
  decide

/-- C9 amended: the location derivation is deterministic for every product
whose EAN has at least 4 characters (and for a missing product); only the
short-EAN fallback draws random numbers. -/
theorem generateLocation_deterministic_for_long_ean (p : Option Product) (r1 r2 r1' r2' : Nat)
    (h : ∀ q, p = some q → 4 ≤ q.ean.length) :
    generateLocation p r1 r2 = generateLocation p r1' r2' := by
  cases p with
  | none => rfl
  | some q =>
    have h4 : 4 ≤ q.ean.length := h q rfl
    simp [generateLocation, h4]

/-- Witness for the amended C9: the sample product's 13-digit EAN yields the
same location for two different pairs of random draws. -/
theorem generateLocation_deterministic_for_long_ean_witness :
    generateLocation (some ⟨"Widget", "8711234567890"⟩) 0 0
      = generateLocation (some ⟨"Widget", "8711234567890"⟩) 5 7 :=
  generateLocation_deterministic_for_long_ean (some ⟨"Widget", "8711234567890"⟩) 0 0 5 7
    (by intro q hq; cases hq; decide)

end Picking
